import Mathlib

/-!
Shallow embedding of the conversational-assistant session engine of
`src/contexts/ChatContext.tsx` (the `ChatProvider` variant that persists a
`PendingRequestMeta` marker): the message log, the pending-request marker
store, the request coordinator (`sendMessage` / `triggerAssistantRequest`),
and the reconciliation effects (cold start and after-mutation).

Conventions of the embedding:
* JS timestamps (`Date.now()`) are `Int` values supplied as explicit
  arguments; successive readings of a monotone clock are modelled as
  explicit hypotheses `t1 ≤ t2` where needed.
* `crypto.randomUUID()` ids are `String` arguments.
* `JSON.parse` results are modelled by the inductive `JsonValue`;
  `Option (Option JsonValue)` stands for a raw `localStorage` read:
  `none` = no item (or empty string), `some none` = `JSON.parse` threw,
  `some (some v)` = parsed value `v`.
* The async `triggerAssistantRequest` is split at its single suspension
  point: `triggerStart` is the synchronous prefix before `await fetch`,
  `triggerFinish` applies the outcome (the `try`/`catch`/`finally` tail).
-/

namespace SentimentChat

inductive MessageRole where
  | user
  | assistant
deriving DecidableEq, Repr

inductive MessageStatus where
  | ready
  | pending
  | error
deriving DecidableEq, Repr

structure ChatMessage where
  id : String
  role : MessageRole
  content : String
  status : MessageStatus
  createdAt : Int
deriving DecidableEq, Repr

structure MessageHistoryItem where
  role : MessageRole
  content : String
deriving DecidableEq, Repr

structure PendingRequestMeta where
  id : String
  prompt : String
  history : List MessageHistoryItem
  createdAt : Int
deriving DecidableEq, Repr

def MAX_HISTORY : Nat := 40

/-- The ECMAScript white-space and line-terminator set that
`String.prototype.trim` strips. -/
def isJsWhitespace (ch : Char) : Bool :=
  decide (ch = ' ' ∨ ch = '\t' ∨ ch = '\n' ∨ ch = '\r' ∨ ch.toNat = 0x0B ∨ ch.toNat = 0x0C ∨
    ch.toNat = 0xA0 ∨ ch.toNat = 0x1680 ∨ (0x2000 ≤ ch.toNat ∧ ch.toNat ≤ 0x200A) ∨
    ch.toNat = 0x2028 ∨ ch.toNat = 0x2029 ∨ ch.toNat = 0x202F ∨ ch.toNat = 0x205F ∨
    ch.toNat = 0x3000 ∨ ch.toNat = 0xFEFF)

/-- JS `String.prototype.trim`: strip leading and trailing whitespace. -/
def trimString (s : String) : String :=
  ⟨((s.data.dropWhile isJsWhitespace).reverse.dropWhile isJsWhitespace).reverse⟩

/-- JS `Array.prototype.slice(-n)` for positive `n`: the suffix of the last
`min n xs.length` elements. -/
def sliceLast (n : Nat) (xs : List α) : List α :=
  xs.drop (xs.length - n)

/-- `createWelcomeMessage` of the source; the fresh id and `Date.now()` are
explicit arguments. -/
def createWelcomeMessage (freshId : String) (now : Int) : ChatMessage :=
  { id := freshId
    role := .assistant
    content := "Hi! I\x27m your political intelligence co-pilot. Ask about elections, coalitions, democratization, or policy shifts and I\x27ll summarize recent reporting, academic perspectives, and relevant history."
    status := .ready
    createdAt := now }

def getFallbackMessages (freshId : String) (now : Int) : List ChatMessage :=
  [createWelcomeMessage freshId now]

/-- Model of a parsed JSON value (`JSON.parse` output). -/
inductive JsonValue where
  | null
  | bool (b : Bool)
  | num (n : Int)
  | str (s : String)
  | arr (elems : List JsonValue)
  | obj (fields : List (String × JsonValue))

/-- JS property access `candidate.name` on an object's field list. -/
def lookupField (fields : List (String × JsonValue)) (name : String) : Option JsonValue :=
  match fields with
  | [] => none
  | (k, v) :: rest => if k = name then some v else lookupField rest name

def decodeRole (s : String) : Option MessageRole :=
  if s = "assistant" then some .assistant
  else if s = "user" then some .user
  else none

def decodeStatus (s : String) : Option MessageStatus :=
  if s = "ready" then some .ready
  else if s = "pending" then some .pending
  else if s = "error" then some .error
  else none

/-- `isChatMessage` of the source: shape check over a parsed JSON value. -/
def isChatMessage (value : JsonValue) : Bool :=
  match value with
  | .obj fields =>
      (match lookupField fields "id" with
        | some (.str _) => true
        | _ => false) &&
      (match lookupField fields "role" with
        | some (.str r) => decide (r = "assistant" ∨ r = "user")
        | _ => false) &&
      (match lookupField fields "content" with
        | some (.str _) => true
        | _ => false) &&
      (match lookupField fields "status" with
        | some (.str s) => decide (s = "ready" ∨ s = "pending" ∨ s = "error")
        | _ => false) &&
      (match lookupField fields "createdAt" with
        | some (.num _) => true
        | _ => false)
  | _ => false

/-- Typed reading of a JSON value that passes `isChatMessage`; in the source
the raw JS object itself is kept, which this decoder embeds into the typed
`ChatMessage`. `toChatMessage v` succeeds exactly when `isChatMessage v`
(theorem `isChatMessage_eq_isSome`). -/
def toChatMessage (value : JsonValue) : Option ChatMessage :=
  match value with
  | .obj fields =>
      match lookupField fields "id", lookupField fields "role",
            lookupField fields "content", lookupField fields "status",
            lookupField fields "createdAt" with
      | some (.str i), some (.str r), some (.str c), some (.str st), some (.num t) =>
          match decodeRole r, decodeStatus st with
          | some role, some status =>
              some { id := i, role := role, content := c, status := status, createdAt := t }
          | _, _ => none
      | _, _, _, _, _ => none
  | _ => none

/-- `isHistoryItem` of the source. -/
def isHistoryItem (value : JsonValue) : Bool :=
  match value with
  | .obj fields =>
      (match lookupField fields "role" with
        | some (.str r) => decide (r = "assistant" ∨ r = "user")
        | _ => false) &&
      (match lookupField fields "content" with
        | some (.str _) => true
        | _ => false)
  | _ => false

/-- Typed reading of a history item, embedding the source's
`({ role, content }) => ({ role, content })` projection. -/
def toHistoryItem (value : JsonValue) : Option MessageHistoryItem :=
  match value with
  | .obj fields =>
      match lookupField fields "role", lookupField fields "content" with
      | some (.str r), some (.str c) =>
          match decodeRole r with
          | some role => some { role := role, content := c }
          | none => none
      | _, _ => none
  | _ => none

/-- `sanitizePendingMeta` of the source: validates the marker's shape and
rebuilds it field by field; any malformed part yields `none`. -/
def sanitizePendingMeta (value : JsonValue) : Option PendingRequestMeta :=
  match value with
  | .obj fields =>
      match lookupField fields "id", lookupField fields "prompt",
            lookupField fields "createdAt", lookupField fields "history" with
      | some (.str i), some (.str p), some (.num t), some (.arr hs) =>
          match hs.mapM toHistoryItem with
          | some items => some { id := i, prompt := p, history := items, createdAt := t }
          | none => none
      | _, _, _, _ => none
  | _ => none

/-- `loadMessages` of the source. The argument `raw` is the `localStorage`
read combined with the `JSON.parse` attempt: `none` = no stored item,
`some none` = parsing threw (the `catch` branch), `some (some v)` = parsed
value. The fallback's fresh id and timestamp are explicit arguments. -/
def loadMessages (freshId : String) (now : Int) (raw : Option (Option JsonValue)) :
    List ChatMessage :=
  match raw with
  | none => getFallbackMessages freshId now
  | some none => getFallbackMessages freshId now
  | some (some parsed) =>
      match parsed with
      | .arr elems =>
          let sanitized := elems.filterMap toChatMessage
          if sanitized.isEmpty then getFallbackMessages freshId now else sanitized
      | _ => getFallbackMessages freshId now

/-- The pending-marker read of the cold-start effect: missing item or a
parse failure both end with the marker treated as absent (the source removes
the stored item in the failure branches). -/
def loadPendingMeta (raw : Option (Option JsonValue)) : Option PendingRequestMeta :=
  match raw with
  | none => none
  | some none => none
  | some (some v) => sanitizePendingMeta v

/-- The mutable session state of `ChatProvider`: the rendered message list
(`messages` state, mirrored by `messagesRef` and the persisted log), the
pending-request marker (`pendingMetaRef`, mirrored by its persisted copy —
`persistPendingMeta` keeps the two in sync in every branch), the
single-flight flag (`isSending` state and `isSendingRef`, always written
together), and the surfaced recoverable `error`. -/
structure EngineState where
  messages : List ChatMessage
  pendingMeta : Option PendingRequestMeta
  isSending : Bool
  error : Option String
deriving DecidableEq, Repr

/-- `buildHistoryWindow` of the source: keep user messages and `ready`
assistant messages, take the last 6, project to `{role, content}`. -/
def buildHistoryWindow (messages : List ChatMessage) (upcoming : Option ChatMessage) :
    List MessageHistoryItem :=
  let pool := match upcoming with
    | some u => messages ++ [u]
    | none => messages
  ((sliceLast 6 (pool.filter fun msg => decide (msg.role ≠ .assistant ∨ msg.status = .ready))).map
    fun msg => ({ role := msg.role, content := msg.content } : MessageHistoryItem))

/-- The synchronous prefix of `triggerAssistantRequest` before the `await`
on `fetch`: the single-flight guard is checked, the marker is stored and
persisted, and the flag is set. Returns the new state and whether the
network call was issued. -/
def triggerStart (meta : PendingRequestMeta) (s : EngineState) : EngineState × Bool :=
  if s.isSending then (s, false)
  else ({ s with pendingMeta := some meta, isSending := true }, true)

/-- The outcome of the awaited `fetch` as observed by the `try`/`catch`
chain: `success body` = `response.ok` with body text, `httpError body` =
non-ok response (the thrown `Error(rawText || ...)`), `abort` = an
`AbortError` `DOMException`, `failure msg` = any other thrown `Error`. -/
inductive RequestOutcome where
  | success (body : String)
  | httpError (body : String)
  | abort
  | failure (msg : String)
deriving DecidableEq, Repr

def interruptedMessage : String :=
  "Assistant request was interrupted. Please try again."

def genericFailureMessage : String :=
  "Unable to fetch the analysis. Please try again later."

def unavailableMessage : String :=
  "Assistant is unavailable right now. Please try again."

def emptyResponseFallback : String :=
  "No analysis was returned for that prompt."

/-- `updateAssistantMessage` of the source: transform the message whose id
matches the marker; if none matches (placeholder vanished), append a
synthesized assistant message and trim with `slice(-MAX_HISTORY)`. The
source tracks a `updated` flag while mapping; here that flag is the `any`
test over the same predicate. -/
def updateAssistantMessage (meta : PendingRequestMeta) (now : Int)
    (updater : ChatMessage → ChatMessage) (prev : List ChatMessage) : List ChatMessage :=
  if prev.any fun m => decide (m.id = meta.id) then
    prev.map fun m => if m.id = meta.id then updater { m with createdAt := now } else m
  else
    sliceLast MAX_HISTORY
      (prev ++ [updater { id := meta.id, role := .assistant, content := "", status := .pending,
                          createdAt := now }])

/-- The message text the `catch` branch computes for a failed request:
abort → the distinguished interrupted text; a thrown `Error` → its
`message`; anything else → the generic fallback (unreachable for the
outcomes above since both throw `Error`s). -/
def failureText (outcome : RequestOutcome) : String :=
  match outcome with
  | .abort => interruptedMessage
  | .httpError body => if body = "" then unavailableMessage else body
  | .failure msg => msg
  | .success _ => genericFailureMessage

/-- The resumption of `triggerAssistantRequest` after the `await`: the
`try` success branch, the `catch` branch, and the `finally` block (release
the flag, clear the marker in memory and storage). `now` is the
`Date.now()` read inside `updateAssistantMessage`. -/
def triggerFinish (meta : PendingRequestMeta) (outcome : RequestOutcome) (now : Int)
    (s : EngineState) : EngineState :=
  match outcome with
  | .success body =>
      let formatted := if trimString body = "" then emptyResponseFallback else trimString body
      { s with
        messages := updateAssistantMessage meta now
          (fun previous => { previous with content := formatted, status := .ready }) s.messages
        isSending := false
        pendingMeta := none }
  | _ =>
      let fallback := failureText outcome
      { s with
        messages := updateAssistantMessage meta now
          (fun previous => { previous with content := fallback, status := .error }) s.messages
        error := some fallback
        isSending := false
        pendingMeta := none }

def mkUserMessage (freshId trimmedPrompt : String) (now : Int) : ChatMessage :=
  { id := freshId, role := .user, content := trimmedPrompt, status := .ready, createdAt := now }

def mkAssistantPlaceholder (freshId : String) (now : Int) : ChatMessage :=
  { id := freshId, role := .assistant, content := "Analyzing your question...",
    status := .pending, createdAt := now }

/-- One `sendMessage(prompt)` call, up to and including the synchronous
prefix of the triggered request. `uid`/`aid` are the two `makeId()` results,
`t1`/`t2`/`t3` the three successive `Date.now()` readings (user message,
assistant placeholder, marker). Returns the state at the suspension point
and whether the call was accepted (not blank, not already sending). -/
def sendMessage (prompt uid aid : String) (t1 t2 t3 : Int) (s : EngineState) :
    EngineState × Bool :=
  let trimmed := trimString prompt
  if trimmed = "" ∨ s.isSending then (s, false)
  else
    let userMessage := mkUserMessage uid trimmed t1
    let assistantPlaceholder := mkAssistantPlaceholder aid t2
    let nextMessages := sliceLast MAX_HISTORY (s.messages ++ [userMessage, assistantPlaceholder])
    let historyWindow := buildHistoryWindow s.messages (some userMessage)
    let pendingMeta : PendingRequestMeta :=
      { id := assistantPlaceholder.id, prompt := trimmed, history := historyWindow,
        createdAt := t3 }
    triggerStart pendingMeta { s with messages := nextMessages, error := none }

/-- A `sendMessage` invocation's arguments: the prompt, the two fresh ids
and the three clock readings. -/
structure SendCall where
  prompt : String
  uid : String
  aid : String
  t1 : Int
  t2 : Int
  t3 : Int
deriving Repr

def sendOne (c : SendCall) (s : EngineState) : EngineState × Bool :=
  sendMessage c.prompt c.uid c.aid c.t1 c.t2 c.t3 s

/-- A sequence of `sendMessage` calls with no intervening request
completion. -/
def sendMany (calls : List SendCall) (s : EngineState) : EngineState :=
  match calls with
  | [] => s
  | c :: rest => sendMany rest (sendOne c s).1

def hasPendingMessageFor (id : String) (messages : List ChatMessage) : Bool :=
  messages.any fun msg =>
    decide (msg.id = id ∧ msg.role = .assistant ∧ msg.status = .pending)

/-- The reconciliation `useEffect` (runs after every `messages` mutation):
skip while sending; nothing without a marker; drop the marker when no
matching pending message exists; debounce replays younger than 500 ms;
otherwise refresh `createdAt`, persist, and trigger. Returns the new state
and whether a network call was issued. -/
def reconcilePass (now : Int) (s : EngineState) : EngineState × Bool :=
  if s.isSending then (s, false)
  else
    match s.pendingMeta with
    | none => (s, false)
    | some pendingMeta =>
        if ¬ hasPendingMessageFor pendingMeta.id s.messages then
          ({ s with pendingMeta := none }, false)
        else if now - pendingMeta.createdAt < 500 then (s, false)
        else
          let refreshedMeta := { pendingMeta with createdAt := now }
          triggerStart refreshedMeta { s with pendingMeta := some refreshedMeta }

/-- The cold-start `useEffect` on `[storageKey]`: reload the log, then read
the persisted marker; a missing, unparseable, or malformed marker — or one
with no matching pending assistant message in the reloaded log — is removed
from storage and dropped from memory. Returns the reloaded messages and the
surviving marker. -/
def coldStart (freshId : String) (now : Int) (rawLog rawMeta : Option (Option JsonValue)) :
    List ChatMessage × Option PendingRequestMeta :=
  let nextMessages := loadMessages freshId now rawLog
  match loadPendingMeta rawMeta with
  | none => (nextMessages, none)
  | some parsed =>
      if hasPendingMessageFor parsed.id nextMessages then (nextMessages, some parsed)
      else (nextMessages, none)

/-! ### Helper lemmas -/

theorem sliceLast_sublist (n : Nat) (xs : List α) : List.Sublist (sliceLast n xs) xs :=
  List.drop_sublist _ xs

theorem length_sliceLast (n : Nat) (xs : List α) : (sliceLast n xs).length ≤ n := by
  simp only [sliceLast, List.length_drop]
  omega

theorem sliceLast_append_one (n : Nat) (hn : 1 ≤ n) (xs : List α) (a : α) :
    sliceLast n (xs ++ [a]) = xs.drop (xs.length + 1 - n) ++ [a] := by
  unfold sliceLast
  rw [List.length_append]
  exact List.drop_append_of_le_length (by simp; omega)

theorem sliceLast_append_two (n : Nat) (hn : 2 ≤ n) (xs : List α) (a b : α) :
    sliceLast n (xs ++ [a, b]) = xs.drop (xs.length + 2 - n) ++ [a, b] := by
  unfold sliceLast
  rw [List.length_append]
  exact List.drop_append_of_le_length (by simp; omega)

theorem updateAssistant_spec (meta : PendingRequestMeta) (now : Int) (c : String)
    (st : MessageStatus) (prev : List ChatMessage) :
    (∃ m ∈ updateAssistantMessage meta now
        (fun p => { p with content := c, status := st }) prev, m.id = meta.id) ∧
    (∀ m ∈ updateAssistantMessage meta now
        (fun p => { p with content := c, status := st }) prev,
      m.id = meta.id → m.status = st ∧ m.content = c) := by
  unfold updateAssistantMessage
  by_cases h : (prev.any fun m => decide (m.id = meta.id)) = true
  · rw [if_pos h]
    rcases List.any_eq_true.mp h with ⟨x, hx, hxid⟩
    rw [decide_eq_true_eq] at hxid
    constructor
    · refine ⟨_, List.mem_map_of_mem _ hx, ?_⟩
      rw [if_pos hxid]
      exact hxid
    · intro m hm hmid
      rcases List.mem_map.mp hm with ⟨y, hy, hym⟩
      by_cases hyid : y.id = meta.id
      · rw [if_pos hyid] at hym
        subst hym
        exact ⟨rfl, rfl⟩
      · rw [if_neg hyid] at hym
        subst hym
        exact absurd hmid hyid
  · rw [if_neg h]
    rw [List.any_eq_true] at h
    push_neg at h
    rw [sliceLast_append_one MAX_HISTORY (by decide)]
    constructor
    · exact ⟨_, List.mem_append_right _ (List.mem_singleton.mpr rfl), rfl⟩
    · intro m hm hmid
      rcases List.mem_append.mp hm with hml | hmr
      · have hmprev : m ∈ prev := (List.drop_sublist _ prev).mem hml
        have hne : ¬ m.id = meta.id := by simpa using h m hmprev
        exact absurd hmid hne
      · rw [List.mem_singleton.mp hmr]
        exact ⟨rfl, rfl⟩

theorem isChatMessage_eq_isSome (v : JsonValue) :
    isChatMessage v = (toChatMessage v).isSome := by
  cases v with
  | null => rfl
  | bool b => rfl
  | num n => rfl
  | str s => rfl
  | arr es => rfl
  | obj fields =>
    simp only [isChatMessage, toChatMessage]
    cases h1 : lookupField fields "id" with
    | none => simp
    | some w1 =>
      cases w1 <;> try simp
      case str i =>
      cases h2 : lookupField fields "role" with
      | none => simp
      | some w2 =>
        cases w2 <;> try simp
        case str r =>
        cases h3 : lookupField fields "content" with
        | none => simp
        | some w3 =>
          cases w3 <;> try simp
          case str c =>
          cases h4 : lookupField fields "status" with
          | none => simp
          | some w4 =>
            cases w4 <;> try simp
            case str st =>
            cases h5 : lookupField fields "createdAt" with
            | none => simp
            | some w5 =>
              cases w5 <;> try simp
              case num t =>
              by_cases hr1 : r = "assistant" <;> by_cases hr2 : r = "user" <;>
                by_cases hs1 : st = "ready" <;> by_cases hs2 : st = "pending" <;>
                by_cases hs3 : st = "error" <;>
                simp_all [decodeRole, decodeStatus]

theorem sendOne_busy (c : SendCall) (s : EngineState) (h : s.isSending = true) :
    sendOne c s = (s, false) := by
  simp only [sendOne, sendMessage]
  rw [if_pos (Or.inr h)]

theorem sendMany_busy :
    ∀ (calls : List SendCall) (s : EngineState), s.isSending = true → sendMany calls s = s
  | [], _, _ => rfl
  | c :: rest, s, h => by
      rw [sendMany, sendOne_busy c s h]
      exact sendMany_busy rest s h

theorem sendOne_accepted (c : SendCall) (s : EngineState) (h1 : s.isSending = false)
    (h2 : ¬ trimString c.prompt = "") :
    sendOne c s =
      ({ messages := sliceLast MAX_HISTORY
            (s.messages ++ [mkUserMessage c.uid (trimString c.prompt) c.t1,
                            mkAssistantPlaceholder c.aid c.t2]),
         pendingMeta := some
           { id := c.aid, prompt := trimString c.prompt,
             history := buildHistoryWindow s.messages
               (some (mkUserMessage c.uid (trimString c.prompt) c.t1)),
             createdAt := c.t3 },
         isSending := true,
         error := none }, true) := by
  simp only [sendOne, sendMessage]
  rw [if_neg (by simp [h1, h2])]
  simp only [triggerStart]
  rw [if_neg (by simp [h1])]
  rfl

theorem reconcilePass_busy (now : Int) (s : EngineState) (h : s.isSending = true) :
    reconcilePass now s = (s, false) := by
  unfold reconcilePass
  rw [if_pos h]

theorem reconcilePass_noMeta (now : Int) (s : EngineState) (h1 : s.isSending = false)
    (h2 : s.pendingMeta = none) : reconcilePass now s = (s, false) := by
  unfold reconcilePass
  rw [if_neg (by simp [h1]), h2]

theorem reconcilePass_orphanMarker (now : Int) (s : EngineState) (meta : PendingRequestMeta)
    (h1 : s.isSending = false) (h2 : s.pendingMeta = some meta)
    (h3 : hasPendingMessageFor meta.id s.messages = false) :
    reconcilePass now s = ({ s with pendingMeta := none }, false) := by
  unfold reconcilePass
  rw [if_neg (by simp [h1]), h2]
  simp [h3]

theorem reconcilePass_debounced (now : Int) (s : EngineState) (meta : PendingRequestMeta)
    (h1 : s.isSending = false) (h2 : s.pendingMeta = some meta)
    (h3 : hasPendingMessageFor meta.id s.messages = true)
    (h4 : now - meta.createdAt < 500) : reconcilePass now s = (s, false) := by
  unfold reconcilePass
  rw [if_neg (by simp [h1]), h2]
  simp [h3, if_pos h4]

theorem reconcilePass_fires (now : Int) (s : EngineState) (meta : PendingRequestMeta)
    (h1 : s.isSending = false) (h2 : s.pendingMeta = some meta)
    (h3 : hasPendingMessageFor meta.id s.messages = true)
    (h4 : ¬ now - meta.createdAt < 500) :
    reconcilePass now s =
      ({ s with pendingMeta := some { meta with createdAt := now }, isSending := true },
        true) := by
  unfold reconcilePass
  rw [if_neg (by simp [h1]), h2]
  simp [h3, if_neg h4, triggerStart, h1]

theorem reconcilePass_fired_spec (now : Int) (s : EngineState)
    (h : (reconcilePass now s).2 = true) :
    s.isSending = false ∧
    ∃ meta, s.pendingMeta = some meta ∧ ¬ now - meta.createdAt < 500 ∧
      (reconcilePass now s).1 =
        { s with pendingMeta := some { meta with createdAt := now }, isSending := true } := by
  by_cases hs : s.isSending = true
  · rw [reconcilePass_busy now s hs] at h
    simp at h
  · have hs' : s.isSending = false := by simpa using hs
    cases hm : s.pendingMeta with
    | none =>
        rw [reconcilePass_noMeta now s hs' hm] at h
        simp at h
    | some meta =>
        cases hp : hasPendingMessageFor meta.id s.messages with
        | false =>
            rw [reconcilePass_orphanMarker now s meta hs' hm hp] at h
            simp at h
        | true =>
            by_cases hd : now - meta.createdAt < 500
            · rw [reconcilePass_debounced now s meta hs' hm hp hd] at h
              simp at h
            · exact ⟨hs', meta, rfl, hd, by rw [reconcilePass_fires now s meta hs' hm hp hd]⟩

/-- Scenario-B-style marker payload used for the reconstruction claim: a
marker with id `a1`, prompt `Ping`, empty history snapshot. -/
def pingMarkerJson : JsonValue :=
  .obj [("id", .str "a1"), ("prompt", .str "Ping"), ("history", .arr []),
    ("createdAt", .num 0)]

/-- A state with an orphan pending assistant message (id `b1`), a preceding
user message, and no marker. -/
def orphanState : EngineState :=
  { messages := [
      { id := "u9", role := .user, content := "Ping", status := .ready, createdAt := 0 },
      { id := "b1", role := .assistant, content := "Analyzing your question...",
        status := .pending, createdAt := 1 }],
    pendingMeta := none, isSending := false, error := none }

/-- A state whose marker is exactly 500 ms old at clock reading 500, with a
matching pending assistant message. -/
def debounceState : EngineState :=
  { messages := [
      { id := "u9", role := .user, content := "Ping", status := .ready, createdAt := 0 },
      { id := "a1", role := .assistant, content := "Analyzing your question...",
        status := .pending, createdAt := 0 }],
    pendingMeta := some { id := "a1", prompt := "Ping", history := [], createdAt := 0 },
    isSending := false, error := none }

/-! ### Claim theorems -/

/-- C2: at most one request is in flight per session instance: a
`sendMessage` call issued while `isSending` is set is silently rejected with
no state change (and so is every call of a whole sequence issued in that
condition); an accepted call appends exactly one user/assistant pair (the
log trimmed with `slice(-MAX_HISTORY)`), and sets the guard flag
synchronously at the suspension point, so every further call before the
request completes leaves the state unchanged. -/
theorem chat_C2_single_flight :
    (∀ (c : SendCall) (s : EngineState), s.isSending = true → sendOne c s = (s, false)) ∧
    (∀ (calls : List SendCall) (s : EngineState), s.isSending = true → sendMany calls s = s) ∧
    (∀ (c : SendCall) (s : EngineState), s.isSending = false → ¬ trimString c.prompt = "" →
      (sendOne c s).2 = true ∧
      (sendOne c s).1.isSending = true ∧
      (sendOne c s).1.messages =
        sliceLast MAX_HISTORY
          (s.messages ++ [mkUserMessage c.uid (trimString c.prompt) c.t1,
                          mkAssistantPlaceholder c.aid c.t2]) ∧
      ∀ rest : List SendCall, sendMany rest (sendOne c s).1 = (sendOne c s).1) := by
  refine ⟨sendOne_busy, sendMany_busy, ?_⟩
  intro c s h1 h2
  have he := sendOne_accepted c s h1 h2
  rw [he]
  exact ⟨rfl, rfl, rfl, fun rest => sendMany_busy rest _ rfl⟩

/-- Witness for C2: a concrete busy-state call is rejected unchanged, and a
concrete idle-state call is accepted. -/
theorem chat_C2_witness :
    sendOne { prompt := "Hello", uid := "u1", aid := "a1", t1 := 1, t2 := 2, t3 := 3 }
        { messages := [], pendingMeta := none, isSending := true, error := none } =
      ({ messages := [], pendingMeta := none, isSending := true, error := none }, false) ∧
    (sendOne { prompt := "Hello", uid := "u1", aid := "a1", t1 := 1, t2 := 2, t3 := 3 }
        { messages := [], pendingMeta := none, isSending := false, error := none }).2 = true :=
  ⟨chat_C2_single_flight.1 _ _ rfl,
    (chat_C2_single_flight.2.2
      { prompt := "Hello", uid := "u1", aid := "a1", t1 := 1, t2 := 2, t3 := 3 }
      { messages := [], pendingMeta := none, isSending := false, error := none }
      rfl (by decide)).1⟩

/-- C9 as stated is false: both messages of the pair read `Date.now()`
separately, and the clock may return the same millisecond; at `t1 = t2 =
1000` the accepted call creates a user message and an assistant placeholder
with equal `createdAt`, which does not strictly precede. -/
theorem chat_C9_counterexample :
    (sendMessage "Hello" "u1" "a1" 1000 1000 1000
        { messages := [], pendingMeta := none, isSending := false, error := none }).2 = true ∧
    ((sendMessage "Hello" "u1" "a1" 1000 1000 1000
        { messages := [], pendingMeta := none, isSending := false, error := none }).1.messages.map
      fun m => (m.role, m.createdAt)) =
        [(MessageRole.user, 1000), (MessageRole.assistant, 1000)] ∧
    ¬ ((1000 : Int) < 1000) := by
  refine ⟨rfl, rfl, by decide⟩

/-- C9 amended: for every accepted `sendMessage` call under a non-decreasing
clock, the created user message's `createdAt` is less than or equal to —
never after — its paired assistant placeholder's `createdAt`; equality is
possible because each message reads `Date.now()` separately. -/
theorem chat_C9_pair_timestamps (c : SendCall) (s : EngineState)
    (h1 : s.isSending = false) (h2 : ¬ trimString c.prompt = "") (hclock : c.t1 ≤ c.t2) :
    ∃ pre : List ChatMessage,
      (sendOne c s).1.messages =
        pre ++ [mkUserMessage c.uid (trimString c.prompt) c.t1, mkAssistantPlaceholder c.aid c.t2] ∧
      (mkUserMessage c.uid (trimString c.prompt) c.t1).role = .user ∧
      (mkAssistantPlaceholder c.aid c.t2).role = .assistant ∧
      (mkUserMessage c.uid (trimString c.prompt) c.t1).createdAt ≤
        (mkAssistantPlaceholder c.aid c.t2).createdAt := by
  refine ⟨s.messages.drop (s.messages.length + 2 - MAX_HISTORY), ?_, rfl, rfl, hclock⟩
  rw [sendOne_accepted c s h1 h2]
  exact sliceLast_append_two MAX_HISTORY (by decide) s.messages _ _

/-- Witness for C9 (amended) at a concrete accepted call with clock readings
1 and 2. -/
theorem chat_C9_witness :
    ∃ pre : List ChatMessage,
      (sendOne { prompt := "Hi", uid := "u1", aid := "a1", t1 := 1, t2 := 2, t3 := 3 }
          { messages := [], pendingMeta := none, isSending := false,
            error := none }).1.messages =
        pre ++ [mkUserMessage "u1" (trimString "Hi") 1, mkAssistantPlaceholder "a1" 2] ∧
      (mkUserMessage "u1" (trimString "Hi") 1).role = .user ∧
      (mkAssistantPlaceholder "a1" 2).role = .assistant ∧
      (mkUserMessage "u1" (trimString "Hi") 1).createdAt ≤
        (mkAssistantPlaceholder "a1" 2).createdAt :=
  chat_C9_pair_timestamps
    { prompt := "Hi", uid := "u1", aid := "a1", t1 := 1, t2 := 2, t3 := 3 }
    { messages := [], pendingMeta := none, isSending := false, error := none }
    rfl (by decide) (by decide)

/-- C4: the history submitted to the assistant endpoint for an accepted
`sendMessage` call arises from a sub-sequence of the log plus the new user
message in which every assistant entry has status `ready` (pending and
error assistant messages are excluded), capped at 6 entries taken as the
most recent window in creation order — a suffix of the whole ready-filtered
pool whose length is exactly `min 6` of that pool's length, which pins it
as the last qualifying messages, not an arbitrary choice — with the newly
created user message as its last element; that window is exactly the
`history` of the persisted marker. -/
theorem chat_C4_bounded_window (c : SendCall) (s : EngineState)
    (h1 : s.isSending = false) (h2 : ¬ trimString c.prompt = "") :
    ∃ src : List ChatMessage,
      List.Sublist src (s.messages ++ [mkUserMessage c.uid (trimString c.prompt) c.t1]) ∧
      (∀ m ∈ src, m.role = .assistant → m.status = .ready) ∧
      src.length ≤ 6 ∧
      (∃ older : List ChatMessage,
        older ++ src =
          (s.messages ++ [mkUserMessage c.uid (trimString c.prompt) c.t1]).filter
            fun msg => decide (msg.role ≠ .assistant ∨ msg.status = .ready)) ∧
      src.length = min 6
        ((s.messages ++ [mkUserMessage c.uid (trimString c.prompt) c.t1]).filter
          fun msg => decide (msg.role ≠ .assistant ∨ msg.status = .ready)).length ∧
      src.getLast? = some (mkUserMessage c.uid (trimString c.prompt) c.t1) ∧
      (sendOne c s).1.pendingMeta = some
        { id := c.aid, prompt := trimString c.prompt,
          history := src.map fun m =>
            ({ role := m.role, content := m.content } : MessageHistoryItem),
          createdAt := c.t3 } := by
  refine ⟨sliceLast 6
      ((s.messages ++ [mkUserMessage c.uid (trimString c.prompt) c.t1]).filter
        fun msg => decide (msg.role ≠ .assistant ∨ msg.status = .ready)),
    ?_, ?_, ?_, ?_, ?_, ?_, ?_⟩
  · exact (sliceLast_sublist _ _).trans (List.filter_sublist _)
  · intro m hm hrole
    have hmem := (sliceLast_sublist 6 _).mem hm
    have hp := List.of_mem_filter hmem
    rw [decide_eq_true_eq] at hp
    rcases hp with h | h
    · exact absurd hrole h
    · exact h
  · exact length_sliceLast 6 _
  · refine ⟨((s.messages ++ [mkUserMessage c.uid (trimString c.prompt) c.t1]).filter
        fun msg => decide (msg.role ≠ .assistant ∨ msg.status = .ready)).take
      (((s.messages ++ [mkUserMessage c.uid (trimString c.prompt) c.t1]).filter
          fun msg => decide (msg.role ≠ .assistant ∨ msg.status = .ready)).length - 6), ?_⟩
    exact List.take_append_drop _ _
  · simp only [sliceLast, List.length_drop]
    omega
  · rw [List.filter_append, List.filter_cons_of_pos (by simp [mkUserMessage]), List.filter_nil,
      sliceLast_append_one 6 (by decide)]
    exact List.getLast?_concat _
  · rw [sendOne_accepted c s h1 h2]
    rfl

/-- Witness for C4 at a concrete accepted call from an idle state. -/
theorem chat_C4_witness :
    ∃ src : List ChatMessage,
      List.Sublist src
        (({ messages := [], pendingMeta := none, isSending := false,
            error := none } : EngineState).messages ++
          [mkUserMessage "u1" (trimString "Hi") 1]) ∧
      (∀ m ∈ src, m.role = .assistant → m.status = .ready) ∧
      src.length ≤ 6 ∧
      (∃ older : List ChatMessage,
        older ++ src =
          (({ messages := [], pendingMeta := none, isSending := false,
              error := none } : EngineState).messages ++
            [mkUserMessage "u1" (trimString "Hi") 1]).filter
            fun msg => decide (msg.role ≠ .assistant ∨ msg.status = .ready)) ∧
      src.length = min 6
        ((({ messages := [], pendingMeta := none, isSending := false,
              error := none } : EngineState).messages ++
            [mkUserMessage "u1" (trimString "Hi") 1]).filter
          fun msg => decide (msg.role ≠ .assistant ∨ msg.status = .ready)).length ∧
      src.getLast? = some (mkUserMessage "u1" (trimString "Hi") 1) ∧
      (sendOne { prompt := "Hi", uid := "u1", aid := "a1", t1 := 1, t2 := 2, t3 := 3 }
          { messages := [], pendingMeta := none, isSending := false,
            error := none }).1.pendingMeta = some
        { id := "a1", prompt := trimString "Hi",
          history := src.map fun m =>
            ({ role := m.role, content := m.content } : MessageHistoryItem),
          createdAt := 3 } :=
  chat_C4_bounded_window
    { prompt := "Hi", uid := "u1", aid := "a1", t1 := 1, t2 := 2, t3 := 3 }
    { messages := [], pendingMeta := none, isSending := false, error := none }
    rfl (by decide)

/-- C6: when an in-flight request is aborted, the matching assistant message
transitions to status `error` with the distinguished interrupted reason text
(distinct from both generic network-failure texts), the marker is deleted,
and the single-flight flag is released. -/
theorem chat_C6_abort_transition (meta : PendingRequestMeta) (now : Int) (s : EngineState) :
    (∃ m ∈ (triggerFinish meta .abort now s).messages, m.id = meta.id) ∧
    (∀ m ∈ (triggerFinish meta .abort now s).messages,
        m.id = meta.id → m.status = .error ∧ m.content = interruptedMessage) ∧
    (triggerFinish meta .abort now s).pendingMeta = none ∧
    (triggerFinish meta .abort now s).isSending = false ∧
    interruptedMessage ≠ genericFailureMessage ∧
    interruptedMessage ≠ unavailableMessage := by
  have h := updateAssistant_spec meta now interruptedMessage .error s.messages
  exact ⟨h.1, h.2, rfl, rfl, by decide, by decide⟩

/-- C7: on a successful response the trimmed body becomes the matching
assistant message's content — the fixed fallback string when the trimmed
body is empty — the message transitions to `ready`, the marker is cleared,
and the single-flight flag is released. -/
theorem chat_C7_success_transition (meta : PendingRequestMeta) (body : String) (now : Int)
    (s : EngineState) :
    (∃ m ∈ (triggerFinish meta (.success body) now s).messages, m.id = meta.id) ∧
    (∀ m ∈ (triggerFinish meta (.success body) now s).messages,
        m.id = meta.id → m.status = .ready ∧
          m.content = if trimString body = "" then emptyResponseFallback else trimString body) ∧
    (triggerFinish meta (.success body) now s).pendingMeta = none ∧
    (triggerFinish meta (.success body) now s).isSending = false := by
  have h := updateAssistant_spec meta now
    (if trimString body = "" then emptyResponseFallback else trimString body) .ready s.messages
  exact ⟨h.1, h.2, rfl, rfl⟩

/-- C8: an unparseable persisted payload is treated as absent and never
throws (the loaders are total): the log falls back to exactly the single
default greeting message and the marker falls back to none; a missing
payload behaves the same way. -/
theorem chat_C8_corrupt_storage_fallback (freshId : String) (now : Int) :
    loadMessages freshId now (some none) = [createWelcomeMessage freshId now] ∧
    (loadMessages freshId now (some none)).length = 1 ∧
    loadPendingMeta (some none) = none ∧
    loadMessages freshId now none = [createWelcomeMessage freshId now] ∧
    loadPendingMeta none = none :=
  ⟨rfl, rfl, rfl, rfl, rfl⟩

/-- C10: a persisted log that parses as an array with a mix of well-formed
and malformed entries loads as exactly the well-formed entries in their
original order (`filterMap` of the typed reading, which succeeds exactly
when `isChatMessage` accepts); the single-greeting fallback is used only
when no well-formed entry remains. -/
theorem chat_C10_sanitized_log_filter (freshId : String) (now : Int) (elems : List JsonValue) :
    (∀ v, isChatMessage v = (toChatMessage v).isSome) ∧
    (elems.filterMap toChatMessage ≠ [] →
      loadMessages freshId now (some (some (.arr elems))) = elems.filterMap toChatMessage) ∧
    (elems.filterMap toChatMessage = [] →
      loadMessages freshId now (some (some (.arr elems))) =
        [createWelcomeMessage freshId now]) := by
  refine ⟨isChatMessage_eq_isSome, ?_, ?_⟩
  · intro h
    simp only [loadMessages]
    rw [if_neg (by simpa [List.isEmpty_iff] using h)]
  · intro h
    simp only [loadMessages, getFallbackMessages]
    rw [if_pos (by simpa [List.isEmpty_iff] using h)]

/-- Witness for C10 at a concrete mixed payload: one well-formed entry
followed by one malformed entry loads as exactly the decoded well-formed
entry. -/
theorem chat_C10_witness :
    loadMessages "w0" 0 (some (some (JsonValue.arr
        [JsonValue.obj [("id", JsonValue.str "m1"), ("role", JsonValue.str "user"),
            ("content", JsonValue.str "hi"), ("status", JsonValue.str "ready"),
            ("createdAt", JsonValue.num 5)],
          JsonValue.str "junk"]))) =
      [{ id := "m1", role := .user, content := "hi", status := .ready, createdAt := 5 }] := by
  have h := (chat_C10_sanitized_log_filter "w0" 0
    [JsonValue.obj [("id", JsonValue.str "m1"), ("role", JsonValue.str "user"),
        ("content", JsonValue.str "hi"), ("status", JsonValue.str "ready"),
        ("createdAt", JsonValue.num 5)],
      JsonValue.str "junk"]).2.1 (by decide)
  simpa using h

/-- C1 as stated is false: with a persisted marker (id `a1`, prompt `Ping`,
well-formed, as `sanitizePendingMeta` accepts it) and no matching pending
assistant message in the log, the cold-start pass discards the marker and
synthesizes nothing: the log is exactly the fallback greeting — whose only
message is not the marker's prompt and not pending — and no marker
survives. -/
theorem chat_C1_counterexample :
    coldStart "w0" 100 none (some (some pingMarkerJson)) =
      ([createWelcomeMessage "w0" 100], none) ∧
    sanitizePendingMeta pingMarkerJson =
      some { id := "a1", prompt := "Ping", history := [], createdAt := 0 } ∧
    (createWelcomeMessage "w0" 100).id ≠ "a1" ∧
    (createWelcomeMessage "w0" 100).content ≠ "Ping" ∧
    (createWelcomeMessage "w0" 100).status = .ready :=
  ⟨rfl, rfl, by decide, by decide, rfl⟩

/-- C1 amended: when a marker is present but no message in the log matches
the marker's id as a pending assistant message, both the cold-start pass
and the in-session reconciliation pass discard the marker (clearing it from
memory and storage) and leave the log unchanged; nothing is synthesized and
nothing is persisted back. -/
theorem chat_C1_discard_unmatched_marker :
    (∀ (freshId : String) (now : Int) (rawLog rawMeta : Option (Option JsonValue))
        (parsed : PendingRequestMeta),
      loadPendingMeta rawMeta = some parsed →
      hasPendingMessageFor parsed.id (loadMessages freshId now rawLog) = false →
      coldStart freshId now rawLog rawMeta = (loadMessages freshId now rawLog, none)) ∧
    (∀ (now : Int) (s : EngineState) (meta : PendingRequestMeta),
      s.isSending = false → s.pendingMeta = some meta →
      hasPendingMessageFor meta.id s.messages = false →
      reconcilePass now s = ({ s with pendingMeta := none }, false)) := by
  constructor
  · intro freshId now rawLog rawMeta parsed hmeta hfalse
    unfold coldStart
    rw [hmeta]
    simp [hfalse]
  · exact fun now s meta h1 h2 h3 => reconcilePass_orphanMarker now s meta h1 h2 h3

/-- Witness for C1 (amended) at the Scenario-B marker payload over an empty
store. -/
theorem chat_C1_witness :
    coldStart "w0" 100 none (some (some pingMarkerJson)) =
      (loadMessages "w0" 100 none, none) :=
  chat_C1_discard_unmatched_marker.1 "w0" 100 none (some (some pingMarkerJson))
    { id := "a1", prompt := "Ping", history := [], createdAt := 0 } rfl rfl

/-- C3 as stated is false: in a state with an orphan pending assistant
message (id `b1`), a preceding user message, and no marker, the
reconciliation pass changes nothing and synthesizes no marker — the
backward-scan repair described by the spec does not exist in the code. -/
theorem chat_C3_counterexample :
    reconcilePass 10000 orphanState = (orphanState, false) ∧
    hasPendingMessageFor "b1" orphanState.messages = true ∧
    orphanState.pendingMeta = none ∧
    (orphanState.messages.filter fun m => decide (m.role = .user)).length = 1 :=
  ⟨rfl, rfl, rfl, rfl⟩

/-- C3 amended: when no marker is present the reconciliation pass does
nothing at all — no backward scan for a preceding user message, no history
snapshot rebuild, no marker synthesis — so a pending assistant message
without a marker is left pending forever whether or not a preceding user
message exists. -/
theorem chat_C3_no_marker_noop (now : Int) (s : EngineState)
    (h : s.pendingMeta = none) : reconcilePass now s = (s, false) := by
  by_cases hs : s.isSending = true
  · exact reconcilePass_busy now s hs
  · exact reconcilePass_noMeta now s (by simpa using hs) h

/-- Witness for C3 (amended) at the concrete orphan state. -/
theorem chat_C3_witness : reconcilePass 10000 orphanState = (orphanState, false) :=
  chat_C3_no_marker_noop 10000 orphanState rfl

/-- C5 as stated is false in its threshold clause: the pass fires when the
elapsed time is at least 500 ms, not strictly more — at elapsed exactly
500 ms (marker written at 0, clock at 500) the pass issues the call although
500 does not exceed 500. -/
theorem chat_C5_counterexample :
    (reconcilePass 500 debounceState).2 = true ∧
    (∃ meta, debounceState.pendingMeta = some meta ∧ (500 : Int) - meta.createdAt = 500) ∧
    ¬ ((500 : Int) - 0 > 500) :=
  ⟨rfl, ⟨{ id := "a1", prompt := "Ping", history := [], createdAt := 0 }, rfl, by decide⟩,
    by decide⟩

/-- C5 amended: a reconciliation pass calls the trigger only when the
elapsed time since `marker.createdAt` is at least (not strictly above) the
500 ms debounce threshold; a firing pass refreshes `createdAt` to the
current clock and sets the single-flight flag, so two passes run in
immediate succession on the same state issue at most one network call. -/
theorem chat_C5_reconcile_idempotent :
    (∀ (now : Int) (s : EngineState), (reconcilePass now s).2 = true →
      ∃ meta, s.pendingMeta = some meta ∧ 500 ≤ now - meta.createdAt) ∧
    (∀ (now : Int) (s : EngineState), (reconcilePass now s).2 = true →
      (reconcilePass now s).1.isSending = true ∧
      ∃ meta, (reconcilePass now s).1.pendingMeta = some meta ∧ meta.createdAt = now) ∧
    (∀ (now later : Int) (s : EngineState),
      ((reconcilePass now s).2 && (reconcilePass later (reconcilePass now s).1).2) = false) := by
  refine ⟨?_, ?_, ?_⟩
  · intro now s h
    obtain ⟨_, meta, hm, hd, _⟩ := reconcilePass_fired_spec now s h
    exact ⟨meta, hm, by omega⟩
  · intro now s h
    obtain ⟨_, meta, _, _, hst⟩ := reconcilePass_fired_spec now s h
    rw [hst]
    exact ⟨rfl, { meta with createdAt := now }, rfl, rfl⟩
  · intro now later s
    cases hfire : (reconcilePass now s).2 with
    | false => simp
    | true =>
        obtain ⟨_, meta, _, _, hst⟩ := reconcilePass_fired_spec now s hfire
        rw [hst, reconcilePass_busy later _ rfl]
        simp

/-- Witness for C5 (amended): the firing pass at clock 500 over the
500 ms-old marker satisfies the at-least-threshold bound. -/
theorem chat_C5_witness :
    ∃ meta, debounceState.pendingMeta = some meta ∧
      (500 : Int) ≤ 500 - meta.createdAt :=
  chat_C5_reconcile_idempotent.1 500 debounceState rfl

end SentimentChat
